import Mathlib

/-!
Verification of the cross-window authentication handshake of the
pettai-agent frontend: a shallow embedding in Lean 4 of the origin-alias
computation (frontend/src/utils/originAliases.js), the parent-side auth
state machine (frontend/src/providers/AuthProvider.jsx, primary variant),
and the deduplicating multi-channel message listener
(hooks/useAuthMessageListener.js).

JavaScript values that may be absent (undefined or null) are embedded as
Option; JavaScript truthiness of a string is emptiness of the Option or
of the string, truthiness of a number is the value being nonzero.
Asynchronous effects (fetch, window.open) are embedded by passing their
outcome as an explicit argument and returning the request that was issued
alongside the new state.
-/

namespace Pettai

/-- Truthiness of an optional string as JavaScript sees it: undefined,
null and the empty string are falsy. -/
def truthyStr : Option String → Bool
  | none => false
  | some t => t ≠ ""

/-- Embedding of the JavaScript idiom `a || d` for an optional string `a`
and a default `d`: the string when truthy, otherwise the default. -/
def strOr (a : Option String) (d : String) : String :=
  match a with
  | none => d
  | some t => if t = "" then d else t

/-- Truthiness of an optional number: undefined, null and 0 are falsy. -/
def truthyNat : Option Nat → Bool
  | none => false
  | some n => n ≠ 0

/-! ## Origin aliases (originAliases.js) -/

/-- Result of the WHATWG URL constructor, restricted to the fields
originAliases.js reads: `protocol` keeps its trailing colon as in the
browser (for example "http:"), `port` is the empty string when no
explicit port is present. -/
structure ParsedURL where
  protocol : String
  hostname : String
  port : String
deriving DecidableEq, Repr

/-- Strips sep from the front of a character list, or fails. -/
def dropSep : List Char → List Char → Option (List Char)
  | [], rest => some rest
  | _ :: _, [] => none
  | p :: ps, c :: cs => if c = p then dropSep ps cs else none

/-- Splits a character list at the first occurrence of sep. -/
def splitFirst (sep : List Char) : List Char → Option (List Char × List Char)
  | [] => none
  | c :: cs =>
    match dropSep sep (c :: cs) with
    | some rest => some ([], rest)
    | none =>
      match splitFirst sep cs with
      | some (pre, post) => some (c :: pre, post)
      | none => none

/-- Model of the browser URL constructor on simple origin-form inputs
`scheme://host[:port]`; returns none where the constructor would throw.
Hostname lower-casing and default-port stripping are not modelled, which
only narrows the set of concrete inputs reaching the success branch. -/
def parseURL (s : String) : Option ParsedURL :=
  match splitFirst "://".data s.data with
  | none => none
  | some (schemeCs, restCs) =>
    if schemeCs = [] then none
    else
      let hostport := restCs.takeWhile (fun c => c ≠ '/')
      match splitFirst [':'] hostport with
      | none =>
        if hostport = [] then none
        else some ⟨String.mk schemeCs ++ ":", String.mk hostport, ""⟩
      | some (h, p) =>
        if h = [] then none
        else if ':' ∈ p then none
        else if p.all Char.isDigit then
          some ⟨String.mk schemeCs ++ ":", String.mk h, String.mk p⟩
        else none

/-- Embeds formatOrigin of originAliases.js: the port is prefixed with a
colon when truthy (nonempty), otherwise omitted. -/
def formatOrigin (protocol hostname port : String) : String :=
  protocol ++ "//" ++ hostname ++ (if port = "" then "" else ":" ++ port)

/-- Insertion into a JavaScript Set embedded as an insertion-ordered
duplicate-free list. -/
def addAlias (l : List String) (x : String) : List String :=
  if x ∈ l then l else l ++ [x]

/-- Embeds getOriginAliases of originAliases.js: parse the origin, seed
the set with the literal origin and its normalized form, add the
localhost / 127.0.0.1 cross-alias, and fall back to the one-element list
on a parse failure. -/
def getOriginAliases (origin : String) : List String :=
  match parseURL origin with
  | none => [origin]
  | some parsed =>
    let aliases := addAlias [origin]
      (formatOrigin parsed.protocol parsed.hostname parsed.port)
    if parsed.hostname = "localhost" then
      addAlias aliases (formatOrigin parsed.protocol "127.0.0.1" parsed.port)
    else if parsed.hostname = "127.0.0.1" then
      addAlias aliases (formatOrigin parsed.protocol "localhost" parsed.port)
    else
      aliases

theorem mem_addAlias_self (l : List String) (x : String) : x ∈ addAlias l x := by
  unfold addAlias
  by_cases h : x ∈ l
  · simp [h]
  · simp [h]

theorem mem_addAlias_of_mem (l : List String) (x y : String) (h : y ∈ l) :
    y ∈ addAlias l x := by
  unfold addAlias
  by_cases hx : x ∈ l
  · simpa [hx]
  · simp [hx, h]

theorem origin_mem_getOriginAliases (s : String) : s ∈ getOriginAliases s := by
  unfold getOriginAliases
  cases h : parseURL s with
  | none => simp
  | some parsed =>
    have base : s ∈ addAlias [s]
        (formatOrigin parsed.protocol parsed.hostname parsed.port) :=
      mem_addAlias_of_mem _ _ _ (by simp)
    by_cases h1 : parsed.hostname = "localhost"
    · simpa [h1] using mem_addAlias_of_mem _ _ _ base
    · by_cases h2 : parsed.hostname = "127.0.0.1"
      · simpa [h1, h2] using mem_addAlias_of_mem _ _ _ base
      · simpa [h1, h2] using base

/-! ## Parent-side auth state machine (AuthProvider.jsx, primary variant) -/

/-- Error payload of a protocol message, `error: { message, ... }`; only
the message field is read by the provider. -/
structure ErrorInfo where
  message : Option String
deriving DecidableEq, Repr

/-- Fields destructured from event.data by handleMessage. -/
structure MsgData where
  type : Option String
  token : Option String
  status : Option String
  message : Option String
  error : Option ErrorInfo
deriving DecidableEq, Repr

instance : Inhabited MsgData := ⟨⟨none, none, none, none, none⟩⟩

/-- A window message event: sender origin plus optional data payload
(event.data may be null, hence the Option). -/
structure MessageEvent where
  origin : String
  data : Option MsgData
deriving DecidableEq, Repr

/-- Backend response as read by authenticateWithBackend: response.ok plus
the parsed JSON fields it touches. -/
structure BackendResponse where
  ok : Bool
  success : Option Bool
  name : Option String
  message : Option String
deriving DecidableEq, Repr

/-- Heterogeneous value stored in the error field of popupStatus: the raw
backend body, a thrown fetch error, or the error object of an inbound
message. -/
inductive ErrPayload where
  | backendData (r : BackendResponse)
  | fetchError (m : Option String)
  | msgError (e : ErrorInfo)
deriving DecidableEq, Repr

/-- The popupStatus record set throughout AuthProvider.jsx. -/
structure PopupStatusVal where
  status : String
  message : String
  error : Option ErrPayload
  timestamp : Nat
deriving DecidableEq, Repr

/-- Parent-held reference to the child window; only its closed flag is
read by the provider. -/
structure Popup where
  closed : Bool
deriving DecidableEq, Repr

/-- The React state of the primary AuthProvider variant: one field per
useState hook plus the popupRef ref. -/
structure AuthState where
  ready : Bool
  authenticated : Bool
  isPopupOpen : Bool
  wsPet : Option String
  authFailed : Bool
  authError : Option String
  popupStatus : Option PopupStatusVal
  sessionResetSeq : Nat
  popupRef : Option Popup
deriving DecidableEq, Repr

/-- Initial values of every useState hook and of popupRef. -/
def initialState : AuthState :=
  { ready := false, authenticated := false, isPopupOpen := false,
    wsPet := none, authFailed := false, authError := none,
    popupStatus := none, sessionResetSeq := 0, popupRef := none }

/-- Embeds cleanupPopup: closing the window is an external effect; the
state change is dropping the ref and clearing the open flag. -/
def cleanupPopup (s : AuthState) : AuthState :=
  { s with popupRef := none, isPopupOpen := false }

/-- Outcome of the awaited fetch plus JSON parse in
authenticateWithBackend: either an exception (carrying the optional
error.message the catch branch reads) or a response. -/
inductive FetchResult where
  | exn (message : Option String)
  | res (r : BackendResponse)
deriving DecidableEq, Repr

/-- Embeds authenticateWithBackend: a falsy token returns at once with no
request; otherwise the POST /api/login request is issued and the state is
updated from its outcome. The returned Bool records whether the request
was issued. -/
def authenticateWithBackend (token : Option String) (fr : FetchResult)
    (now : Nat) (s : AuthState) : AuthState × Bool :=
  if ¬ truthyStr token then (s, false)
  else
    match fr with
    | .exn em =>
      let backendErrorMessage := strOr em "Unable to authenticate with backend."
      ({ s with
          wsPet := none
          authFailed := true
          authenticated := false
          authError := some backendErrorMessage
          popupStatus := some ⟨"error", backendErrorMessage,
            some (.fetchError em), now⟩ }, true)
    | .res r =>
      if ¬ r.ok ∨ r.success ≠ some true then
        let backendMessage := strOr r.message "Backend login failed. Please try again."
        ({ s with
            wsPet := none
            authFailed := true
            authenticated := false
            authError := some backendMessage
            popupStatus := some ⟨"error", backendMessage,
              some (.backendData r), now⟩ }, true)
      else
        ({ s with
            wsPet := some (strOr r.name "Connected")
            authFailed := false
            authError := none
            authenticated := true
            sessionResetSeq := 0
            popupStatus := some ⟨"completed",
              "Authenticated successfully. Connecting to your Pett agent…",
              none, now⟩ }, true)

/-- Embeds handleMessage of the primary AuthProvider: origin gate, then
the four type branches. The second component is the token passed to
authenticateWithBackend when that call is made (its asynchronous state
effect is applied separately via authenticateWithBackend). The four if
blocks of the source are mutually exclusive on the type string, so an
if-chain is an exact embedding. -/
def handleMessage (allowedOrigins : List String) (now : Nat)
    (event : MessageEvent) (s : AuthState) : AuthState × Option String :=
  if event.origin ∉ allowedOrigins then (s, none)
  else
    let d := event.data.getD default
    if d.type = some "privy-token" ∧ truthyStr d.token then
      let s := cleanupPopup s
      ({ s with
          popupStatus := some ⟨"token-received",
            "Privy token received. Finalizing authentication…", none, now⟩ },
       d.token)
    else if d.type = some "privy-popup-status" then
      let s := { s with
        popupStatus := some ⟨strOr d.status "unknown",
          strOr d.message "", d.error.map .msgError, now⟩ }
      if d.status = some "error" then
        ({ s with
            authFailed := true
            authError := some (strOr (d.error.bind ErrorInfo.message)
              (strOr d.message "Login failed. Please try again.")) }, none)
      else if d.error = none then
        ({ s with
            authFailed := false
            authError := none }, none)
      else (s, none)
    else if d.type = some "privy-popup-error" then
      let popupMessage := strOr (d.error.bind ErrorInfo.message)
        (strOr d.message "Login window reported an error. Please try again.")
      let s := { s with
        popupStatus := some ⟨"error", popupMessage,
          d.error.map .msgError, now⟩
        authFailed := true
        authError := some popupMessage }
      (cleanupPopup s, none)
    else if d.type = some "privy-popup-closed" then
      let s := { s with
        popupStatus := some ⟨"closed",
          strOr d.message "Login window closed.", none, now⟩ }
      (cleanupPopup s, none)
    else (s, none)

/-- Embeds the session-restore state update of restoreSessionIfAvailable
once the health response arrived and the component is still mounted. -/
structure HealthResponse where
  ok : Bool
  websocketAuthenticated : Bool
  websocketTokenPresent : Bool
  petConnected : Bool
  petName : Option String
deriving DecidableEq, Repr

/-- State update of restoreSessionIfAvailable on a health response; a
non-ok response or fetch failure only sets ready. -/
def restoreSession (h : Option HealthResponse) (s : AuthState) : AuthState :=
  match h with
  | none => { s with ready := true }
  | some r =>
    if ¬ r.ok then { s with ready := true }
    else
      let isAuthenticated := r.websocketAuthenticated || r.petConnected
        || r.websocketTokenPresent
      if ¬ isAuthenticated then { s with ready := true }
      else
        { s with
          authenticated := true
          authFailed := false
          authError := none
          sessionResetSeq := 0
          wsPet := some (strOr s.wsPet (strOr r.petName "Connected"))
          ready := true }

/-- The popup URL built by login: origin-relative path plus the query
parameters set through searchParams.set. -/
structure PopupUrl where
  origin : String
  path : String
  params : List (String × String)
deriving DecidableEq, Repr

/-- URLSearchParams.set on an association list: overwrite in place when
the key exists, append otherwise. -/
def setParam (ps : List (String × String)) (k v : String) :
    List (String × String) :=
  if ps.any (fun p => p.1 = k) then
    ps.map (fun p => if p.1 = k then (k, v) else p)
  else ps ++ [(k, v)]

/-- Embeds the URL construction of login: /privy-login against the
current origin, with forceLogout and resetSeq set only when the reset
sequence is positive. -/
def buildLoginUrl (origin : String) (seq : Nat) : PopupUrl :=
  let u : PopupUrl := ⟨origin, "/privy-login", []⟩
  if seq > 0 then
    let ps := setParam (setParam u.params "forceLogout" "1") "resetSeq" (toString seq)
    { u with params := ps }
  else u

/-- Result of a login call: the new state, the number of window.open
attempts made, and the URL passed to window.open. -/
structure LoginResult where
  state : AuthState
  openAttempts : Nat
  openedUrl : PopupUrl
deriving DecidableEq, Repr

/-- Embeds login: close a live existing popup, clear the open flag, build
the URL, make exactly one window.open attempt whose result is the
popupResult argument; on success store the handle and the opening status,
on null surface the allow-popups error. The deferred 100 ms verification
callback only logs or reacts to an already-closed popup and is a separate
later event, not part of this synchronous call. -/
def login (origin : String) (now : Nat) (popupResult : Option Popup)
    (s : AuthState) : LoginResult :=
  let s1 := match s.popupRef with
    | some p => if ¬ p.closed then { s with popupRef := none } else s
    | none => s
  let s2 := { s1 with isPopupOpen := false }
  let url := buildLoginUrl origin s.sessionResetSeq
  match popupResult with
  | some p =>
    ⟨{ s2 with
        popupRef := some p
        isPopupOpen := true
        popupStatus := some ⟨"opening", "Opening secure Privy login…", none, now⟩
        authError := none }, 1, url⟩
  | none =>
    let message := "Unable to open login window. Please allow popups and try again."
    ⟨{ s2 with
        popupStatus := some ⟨"error", message, none, now⟩
        authError := some message }, 1, url⟩

/-- Embeds logout: the backend POST /api/logout and the storage sweep are
best-effort external effects with no bearing on the resulting state; the
state change bumps the reset sequence, cleans up the popup and clears the
session fields. -/
def logout (s : AuthState) : AuthState :=
  let s := { s with sessionResetSeq := s.sessionResetSeq + 1 }
  let s := cleanupPopup s
  { s with
    wsPet := none
    authFailed := false
    authError := none
    authenticated := false
    popupStatus := none }

/-- The AuthSession projection of the provider state: authenticated flag,
pet identity and last error (the fields the spec calls AuthSession). -/
def authSessionOf (s : AuthState) : Bool × Option String × Option String :=
  (s.authenticated, s.wsPet, s.authError)

/-! ## Deduplicating message listener (useAuthMessageListener.js) -/

/-- Fields of an inbound auth message as handleAuthMessage reads them;
storageTimestamp embeds the _storageTimestamp field added by the storage
transport. String payloads that fail JSON.parse and MessageEvent
unwrapping are handled before these fields are read, so a malformed input
is embedded as the none message. -/
structure ListenerMsg where
  type : Option String
  token : Option String
  status : Option String
  message : Option String
  error : Option ErrorInfo
  sentAt : Option Nat
  storageTimestamp : Option Nat
deriving DecidableEq, Repr

/-- Callback invocations the listener hands to its AuthProvider host; a
token event stands for the backend exchange its onToken handler runs. -/
inductive CallbackEvent where
  | token (t : String)
  | error (e : ErrorInfo)
  | popupClosed
  | statusChange (status message : Option String)
deriving DecidableEq, Repr

/-- The idempotency id handleAuthMessage computes: data.sentAt when
truthy, else data._storageTimestamp when truthy, else the arrival time
Date.now(). -/
def effectiveId (m : ListenerMsg) (now : Nat) : Nat :=
  if truthyNat m.sentAt then m.sentAt.getD 0
  else if truthyNat m.storageTimestamp then m.storageTimestamp.getD 0
  else now

/-- The switch statement of handleAuthMessage: which callbacks fire for
a message that passed the gates. A privy-token with a falsy token fires
nothing; an unrecognized type falls through to the default case. -/
def dispatch (m : ListenerMsg) : List CallbackEvent :=
  if m.type = some "privy-token" then
    match m.token with
    | some t => if t ≠ "" then [.token t] else []
    | none => []
  else if m.type = some "privy-popup-error" then
    [.error (m.error.getD ⟨m.message⟩)]
  else if m.type = some "privy-popup-closed" then
    [.popupClosed]
  else if m.type = some "privy-popup-status" then
    [.statusChange m.status m.message]
  else []

/-- Embeds handleAuthMessage: reject falsy data and falsy type, drop
messages whose id does not exceed the single lastProcessed scalar, raise
the scalar (this happens before the switch, for every recognized or
unrecognized type), then dispatch. Returns the new lastProcessed value
and the callbacks fired. -/
def handleAuthMessage (now : Nat) (data : Option ListenerMsg)
    (lastProcessed : Nat) : Nat × List CallbackEvent :=
  match data with
  | none => (lastProcessed, [])
  | some m =>
    if ¬ truthyStr m.type then (lastProcessed, [])
    else
      let messageId := effectiveId m now
      if messageId ≤ lastProcessed then (lastProcessed, [])
      else (messageId, dispatch m)

/-- A run of the listener over a sequence of (arrival time, message)
pairs, threading the lastProcessed scalar and collecting callbacks. -/
def runListener (msgs : List (Nat × Option ListenerMsg))
    (lastProcessed : Nat) : Nat × List CallbackEvent :=
  match msgs with
  | [] => (lastProcessed, [])
  | (now, m) :: rest =>
    let step := handleAuthMessage now m lastProcessed
    let tail := runListener rest step.1
    (tail.1, step.2 ++ tail.2)

/-- Number of token callbacks (backend exchanges) fired in a run. -/
def countTokens (evs : List CallbackEvent) : Nat :=
  (evs.filter fun e => match e with | .token _ => true | _ => false).length

theorem handleAuthMessage_dropped (now : Nat) (m : ListenerMsg)
    (lastProcessed : Nat) (h : effectiveId m now ≤ lastProcessed) :
    handleAuthMessage now (some m) lastProcessed = (lastProcessed, []) := by
  unfold handleAuthMessage
  by_cases ht : truthyStr m.type
  · simp [ht, h]
  · simp [ht]

theorem handleAuthMessage_le (now : Nat) (data : Option ListenerMsg)
    (lastProcessed : Nat) :
    lastProcessed ≤ (handleAuthMessage now data lastProcessed).1 := by
  unfold handleAuthMessage
  match data with
  | none => simp
  | some m =>
    by_cases ht : truthyStr m.type
    · by_cases hid : effectiveId m now ≤ lastProcessed
      · simp [ht, hid]
      · have h : lastProcessed ≤ effectiveId m now :=
          Nat.le_of_lt (Nat.lt_of_not_le hid)
        simp [ht, hid, h]
    · simp [ht]

theorem handleAuthMessage_processed_fst (now : Nat) (m : ListenerMsg)
    (lastProcessed : Nat) (ht : truthyStr m.type)
    (hid : lastProcessed < effectiveId m now) :
    (handleAuthMessage now (some m) lastProcessed).1 = effectiveId m now := by
  unfold handleAuthMessage
  have hid' : ¬ effectiveId m now ≤ lastProcessed := Nat.not_le_of_lt hid
  simp [ht, hid']

theorem dispatch_len (m : ListenerMsg) : (dispatch m).length ≤ 1 := by
  unfold dispatch
  by_cases h1 : m.type = some "privy-token"
  · simp only [h1, if_true]
    rcases m.token with _ | tok
    · simp
    · by_cases he : tok = "" <;> simp [he]
  · by_cases h2 : m.type = some "privy-popup-error"
    · simp [h1, h2]
    · by_cases h3 : m.type = some "privy-popup-closed"
      · simp [h1, h2, h3]
      · by_cases h4 : m.type = some "privy-popup-status"
        · simp [h1, h2, h3, h4]
        · simp [h1, h2, h3, h4]

theorem handleAuthMessage_events_len (now : Nat) (data : Option ListenerMsg)
    (lastProcessed : Nat) :
    (handleAuthMessage now data lastProcessed).2.length ≤ 1 := by
  unfold handleAuthMessage
  match data with
  | none => simp
  | some m =>
    by_cases ht : truthyStr m.type
    · by_cases hid : effectiveId m now ≤ lastProcessed
      · simp [ht, hid]
      · simpa [ht, hid] using dispatch_len m
    · simp [ht]

theorem effectiveId_of_sentAt (m : ListenerMsg) (now s : Nat)
    (h : m.sentAt = some s) (hs : 0 < s) : effectiveId m now = s := by
  have hs' : s ≠ 0 := by omega
  simp [effectiveId, h, truthyNat, hs']

theorem runListener_all_stale (s : Nat) (hs : 0 < s) :
    ∀ (msgs : List (Nat × Option ListenerMsg)),
    (∀ p ∈ msgs, ∃ m, p.2 = some m ∧ m.sentAt = some s) →
    ∀ last, s ≤ last → runListener msgs last = (last, []) := by
  intro msgs
  induction msgs with
  | nil => intro _ last _; rfl
  | cons p rest ih =>
    intro hall last hle
    obtain ⟨m, hp2, hsent⟩ := hall p (by simp)
    have hid : effectiveId m p.1 = s := effectiveId_of_sentAt m p.1 s hsent hs
    have hstep : handleAuthMessage p.1 p.2 last = (last, []) := by
      rw [hp2]
      exact handleAuthMessage_dropped p.1 m last (by omega)
    have htail := ih (fun q hq => hall q (by simp [hq])) last hle
    show (let step := handleAuthMessage p.1 p.2 last
          let tail := runListener rest step.1
          (tail.1, step.2 ++ tail.2)) = (last, [])
    rw [hstep]
    simp [htail]

theorem runListener_same_sentAt_len (s : Nat) (hs : 0 < s) :
    ∀ (msgs : List (Nat × Option ListenerMsg)),
    (∀ p ∈ msgs, ∃ m, p.2 = some m ∧ m.sentAt = some s) →
    ∀ last, ((runListener msgs last).2).length ≤ 1 := by
  intro msgs
  induction msgs with
  | nil => intro _ last; simp [runListener]
  | cons p rest ih =>
    intro hall last
    obtain ⟨m, hp2, hsent⟩ := hall p (by simp)
    have hid : effectiveId m p.1 = s := effectiveId_of_sentAt m p.1 s hsent hs
    have hrest : ∀ q ∈ rest, ∃ m, q.2 = some m ∧ m.sentAt = some s :=
      fun q hq => hall q (by simp [hq])
    by_cases hle : s ≤ last
    · have := runListener_all_stale s hs (p :: rest) hall last hle
      simp [this]
    · show ((let step := handleAuthMessage p.1 p.2 last
             let tail := runListener rest step.1
             (tail.1, step.2 ++ tail.2)).2).length ≤ 1
      by_cases ht : truthyStr m.type
      · have hstep : handleAuthMessage p.1 p.2 last = (s, dispatch m) := by
          rw [hp2]
          unfold handleAuthMessage
          simp [ht, hid, hle]
        have htail : runListener rest s = (s, []) :=
          runListener_all_stale s hs rest hrest s (Nat.le_refl s)
        rw [hstep]
        simp [htail, dispatch_len m]
      · have hstep : handleAuthMessage p.1 p.2 last = (last, []) := by
          rw [hp2]
          unfold handleAuthMessage
          simp [ht]
        rw [hstep]
        simpa using ih hrest last

theorem countTokens_le_len (evs : List CallbackEvent) :
    countTokens evs ≤ evs.length := by
  unfold countTokens
  exact List.length_filter_le _ _

/-! ## Claims -/

/-- Claim C4: for every origin whose parsed hostname is localhost, the alias
set contains the literal origin and the 127.0.0.1 variant with the same
scheme and port; symmetrically for hostname 127.0.0.1; and every input
origin is a member of its own alias set. -/
theorem getOriginAliases_localhost_cross_alias :
    (∀ s u, parseURL s = some u → u.hostname = "localhost" →
      s ∈ getOriginAliases s ∧
      formatOrigin u.protocol "127.0.0.1" u.port ∈ getOriginAliases s) ∧
    (∀ s u, parseURL s = some u → u.hostname = "127.0.0.1" →
      s ∈ getOriginAliases s ∧
      formatOrigin u.protocol "localhost" u.port ∈ getOriginAliases s) ∧
    (∀ s, s ∈ getOriginAliases s) := by
  refine ⟨?_, ?_, origin_mem_getOriginAliases⟩
  · intro s u hp hh
    refine ⟨origin_mem_getOriginAliases s, ?_⟩
    unfold getOriginAliases
    rw [hp]
    simp only [hh, if_true]
    exact mem_addAlias_self _ _
  · intro s u hp hh
    refine ⟨origin_mem_getOriginAliases s, ?_⟩
    unfold getOriginAliases
    rw [hp]
    have : u.hostname ≠ "localhost" := by rw [hh]; decide
    simp only [hh, this, if_false, reduceIte]
    exact mem_addAlias_self _ _

/-- Witness for C4 at the concrete origin http://localhost:3000. -/
theorem getOriginAliases_localhost_cross_alias_witness :
    "http://localhost:3000" ∈ getOriginAliases "http://localhost:3000" ∧
    "http://127.0.0.1:3000" ∈ getOriginAliases "http://localhost:3000" :=
  getOriginAliases_localhost_cross_alias.1 "http://localhost:3000"
    ⟨"http:", "localhost", "3000"⟩ (by decide) (by decide)

/-- Claim C8: getOriginAliases is total — embedded as a total function whose
parse-failure branch returns exactly the one-element list holding the
unchanged input, so the own-origin membership invariant holds for every
input, malformed ones included. -/
theorem getOriginAliases_total (s : String) :
    (parseURL s = none → getOriginAliases s = [s]) ∧ s ∈ getOriginAliases s := by
  refine ⟨?_, origin_mem_getOriginAliases s⟩
  intro h
  unfold getOriginAliases
  rw [h]

/-- Witness for C8 at the unparseable input "not a url". -/
theorem getOriginAliases_total_witness :
    getOriginAliases "not a url" = ["not a url"] ∧
    "not a url" ∈ getOriginAliases "not a url" :=
  ⟨(getOriginAliases_total "not a url").1 (by decide),
   (getOriginAliases_total "not a url").2⟩

/-- Claim C5: logout is idempotent on the AuthSession — a second logout from
the already-logged-out state yields the same AuthSession projection
(authenticated, petIdentity, lastError) as the first, namely false with
both fields cleared; the embedding is a total function, so the call
terminates without throwing. -/
theorem logout_idempotent_on_session (s : AuthState) :
    authSessionOf (logout (logout s)) = authSessionOf (logout s) ∧
    (logout s).authenticated = false ∧ (logout s).wsPet = none ∧
    (logout s).authError = none := by
  unfold logout cleanupPopup authSessionOf
  simp

/-- Claim C10: authenticateWithBackend invoked with a null/undefined or
empty-string token returns at once: no POST /api/login request is issued
(second component false) and the provider state is unchanged, whatever
the would-be fetch outcome. -/
theorem authenticateWithBackend_falsy_token_noop (fr : FetchResult)
    (now : Nat) (s : AuthState) :
    authenticateWithBackend none fr now s = (s, false) ∧
    authenticateWithBackend (some "") fr now s = (s, false) := by
  unfold authenticateWithBackend
  simp [truthyStr]

/-- Claim C6: when window.open returns null (popup blocked), login surfaces
the allow-popups failure in authError and popupStatus, makes exactly one
open attempt (no retry), and does not leave isPopupOpen true. -/
theorem login_blocked_popup (origin : String) (now : Nat) (s : AuthState) :
    (login origin now none s).state.isPopupOpen = false ∧
    (login origin now none s).state.authError =
      some "Unable to open login window. Please allow popups and try again." ∧
    (login origin now none s).state.popupStatus =
      some ⟨"error",
        "Unable to open login window. Please allow popups and try again.",
        none, now⟩ ∧
    (login origin now none s).openAttempts = 1 := by
  unfold login
  rcases s.popupRef with _ | p
  · simp
  · by_cases hc : p.closed <;> simp [hc]

/-- Claim C7: logout increments the reset sequence, and a login that follows
it builds a popup URL whose query parameters include forceLogout=1 and
resetSeq equal to the incremented value. -/
theorem logout_then_login_forceLogout (origin : String) (now : Nat)
    (popupResult : Option Popup) (s : AuthState) :
    (logout s).sessionResetSeq = s.sessionResetSeq + 1 ∧
    ("forceLogout", "1") ∈
      (login origin now popupResult (logout s)).openedUrl.params ∧
    ("resetSeq", toString (s.sessionResetSeq + 1)) ∈
      (login origin now popupResult (logout s)).openedUrl.params := by
  refine ⟨by simp [logout, cleanupPopup], ?_, ?_⟩ <;>
  · unfold login logout cleanupPopup buildLoginUrl setParam
    rcases popupResult with _ | p <;> simp

/-- Claim C3: an inbound message whose sender origin is outside the
computed origin alias set is dropped by handleMessage: the provider
state is entirely unchanged and no backend exchange is triggered, so a
run with such a message is indistinguishable from one without it. -/
theorem origin_rejected_no_state_change (selfOrigin : String) (now : Nat)
    (event : MessageEvent) (s : AuthState)
    (h : event.origin ∉ getOriginAliases selfOrigin) :
    handleMessage (getOriginAliases selfOrigin) now event s = (s, none) := by
  unfold handleMessage
  simp [h]

/-- Witness for C3: a token-carrying message from a foreign origin
leaves the initial state untouched. -/
theorem origin_rejected_no_state_change_witness :
    handleMessage (getOriginAliases "http://localhost:3000") 7
      ⟨"https://evil.example", some ⟨some "privy-token", some "tok", none, none, none⟩⟩
      initialState = (initialState, none) :=
  origin_rejected_no_state_change "http://localhost:3000" 7
    ⟨"https://evil.example", some ⟨some "privy-token", some "tok", none, none, none⟩⟩
    initialState (by decide)

theorem handleMessage_token_delivered (allowed : List String) (now : Nat)
    (orig tok : String) (s : AuthState) (hOrig : orig ∈ allowed)
    (hTok : tok ≠ "") :
    handleMessage allowed now
      ⟨orig, some ⟨some "privy-token", some tok, none, none, none⟩⟩ s =
    ({ cleanupPopup s with popupStatus := some ⟨"token-received",
       "Privy token received. Finalizing authentication…", none, now⟩ },
     some tok) := by
  unfold handleMessage
  simp [hOrig, truthyStr, hTok]

/-- Claim C1: round trip — after login, a token-delivered message from
an allowed origin carrying a nonempty token, followed by the backend
response success=true name="Rex", leaves the machine authenticated with
wsPet (the pet identity) equal to "Rex". -/
theorem login_token_backend_roundTrip (allowed : List String)
    (selfOrigin orig tok : String) (p : Popup) (s0 : AuthState)
    (n1 n2 n3 : Nat) (hOrig : orig ∈ allowed) (hTok : tok ≠ "") :
    ((authenticateWithBackend
        (handleMessage allowed n2
          ⟨orig, some ⟨some "privy-token", some tok, none, none, none⟩⟩
          (login selfOrigin n1 (some p) s0).state).2
        (.res ⟨true, some true, some "Rex", none⟩) n3
        (handleMessage allowed n2
          ⟨orig, some ⟨some "privy-token", some tok, none, none, none⟩⟩
          (login selfOrigin n1 (some p) s0).state).1).1.authenticated = true ∧
     (authenticateWithBackend
        (handleMessage allowed n2
          ⟨orig, some ⟨some "privy-token", some tok, none, none, none⟩⟩
          (login selfOrigin n1 (some p) s0).state).2
        (.res ⟨true, some true, some "Rex", none⟩) n3
        (handleMessage allowed n2
          ⟨orig, some ⟨some "privy-token", some tok, none, none, none⟩⟩
          (login selfOrigin n1 (some p) s0).state).1).1.wsPet = some "Rex") := by
  rw [handleMessage_token_delivered allowed n2 orig tok _ hOrig hTok]
  unfold authenticateWithBackend
  simp [truthyStr, hTok, strOr]

/-- Witness for C1 at concrete inputs. -/
theorem login_token_backend_roundTrip_witness :
    ((authenticateWithBackend
        (handleMessage ["http://localhost:3000"] 2
          ⟨"http://localhost:3000",
           some ⟨some "privy-token", some "tok123", none, none, none⟩⟩
          (login "http://localhost:3000" 1 (some ⟨false⟩) initialState).state).2
        (.res ⟨true, some true, some "Rex", none⟩) 3
        (handleMessage ["http://localhost:3000"] 2
          ⟨"http://localhost:3000",
           some ⟨some "privy-token", some "tok123", none, none, none⟩⟩
          (login "http://localhost:3000" 1 (some ⟨false⟩) initialState).state).1).1.authenticated
      = true ∧
     (authenticateWithBackend
        (handleMessage ["http://localhost:3000"] 2
          ⟨"http://localhost:3000",
           some ⟨some "privy-token", some "tok123", none, none, none⟩⟩
          (login "http://localhost:3000" 1 (some ⟨false⟩) initialState).state).2
        (.res ⟨true, some true, some "Rex", none⟩) 3
        (handleMessage ["http://localhost:3000"] 2
          ⟨"http://localhost:3000",
           some ⟨some "privy-token", some "tok123", none, none, none⟩⟩
          (login "http://localhost:3000" 1 (some ⟨false⟩) initialState).state).1).1.wsPet
      = some "Rex") :=
  login_token_backend_roundTrip ["http://localhost:3000"]
    "http://localhost:3000" "http://localhost:3000" "tok123" ⟨false⟩
    initialState 1 2 3 (by decide) (by decide)

/-! ### Listener deduplication claims -/

/-- A status message carrying sentAt 5, used in concrete runs. -/
def statusMsgAt5 : ListenerMsg :=
  ⟨some "privy-popup-status", none, some "prompting", some "Waiting", none,
   some 5, none⟩

/-- A token message whose sentAt is the falsy value 0. -/
def tokenMsgAt0 : ListenerMsg :=
  ⟨some "privy-token", some "tokA", none, none, none, some 0, none⟩

/-- A token message carrying sentAt 7. -/
def tokenMsgAt7 : ListenerMsg :=
  ⟨some "privy-token", some "tokB", none, none, none, some 7, none⟩

/-- A status message carrying sentAt 100. -/
def statusMsgAt100 : ListenerMsg :=
  ⟨some "privy-popup-status", none, some "prompting", none, none,
   some 100, none⟩

/-- A token message carrying sentAt 50. -/
def tokenMsgAt50 : ListenerMsg :=
  ⟨some "privy-token", some "tokC", none, none, none, some 50, none⟩

/-- Counterexample to C2 as stated: after a message with sentAt 5 has
been processed (the highest sentAt processed is 5), a token message
whose sentAt is 0 — which is less than or equal to 5 and so should be
dropped by the claim — is processed anyway, because the falsy sentAt
falls through to the arrival-time fallback of the idempotency id; two
duplicate deliveries of that same message then fire the token callback
(the backend exchange) twice. -/
theorem listener_sentAt_zero_not_dropped :
    (handleAuthMessage 5 (some statusMsgAt5) 0).1 = 5 ∧
    handleAuthMessage 10 (some tokenMsgAt0) 5 = (10, [.token "tokA"]) ∧
    handleAuthMessage 10 (some tokenMsgAt0) 5 ≠ (5, []) ∧
    countTokens (runListener [(10, some tokenMsgAt0), (20, some tokenMsgAt0)] 5).2 = 2 := by
  refine ⟨by decide, by decide, by decide, by decide⟩

/-- Claim C2 (amended): deduplication is by the effective idempotency id
— the sentAt when nonzero, else the storage timestamp when nonzero, else
the arrival time — a message whose id does not exceed the highest id
already processed is dropped with no callback and no state change; and
for every sequence of duplicate token-delivered messages sharing the
same nonzero sentAt, the token callback (hence the backend exchange)
fires at most once. -/
theorem listener_dedup_by_effective_id :
    (∀ now m last, effectiveId m now ≤ last →
      handleAuthMessage now (some m) last = (last, [])) ∧
    (∀ s, 0 < s →
      ∀ msgs : List (Nat × Option ListenerMsg),
      (∀ q ∈ msgs, ∃ m, q.2 = some m ∧ m.sentAt = some s) →
      ∀ last, countTokens (runListener msgs last).2 ≤ 1) := by
  refine ⟨handleAuthMessage_dropped, ?_⟩
  intro s hs msgs hall last
  exact Nat.le_trans (countTokens_le_len _)
    (runListener_same_sentAt_len s hs msgs hall last)

/-- Witness for the amended C2 at concrete inputs. -/
theorem listener_dedup_by_effective_id_witness :
    handleAuthMessage 3 (some tokenMsgAt7) 9 = (9, []) ∧
    countTokens (runListener [(1, some tokenMsgAt7), (2, some tokenMsgAt7)] 0).2 ≤ 1 :=
  ⟨listener_dedup_by_effective_id.1 3 tokenMsgAt7 9 (by decide),
   listener_dedup_by_effective_id.2 7 (by decide)
     [(1, some tokenMsgAt7), (2, some tokenMsgAt7)]
     (by
       intro q hq
       rcases List.mem_cons.mp hq with h | h
       · exact ⟨tokenMsgAt7, by rw [h], by decide⟩
       · rcases List.mem_cons.mp h with h2 | h2
         · exact ⟨tokenMsgAt7, by rw [h2], by decide⟩
         · cases h2)
     0⟩

/-- Claim C9: the deduplication log is one scalar shared across all
message types and channels — processing any message with a truthy type
raises it to that message id T, every later message of any type whose
id does not exceed T is dropped with no callback, and in particular a
token-delivered message with a smaller nonzero sentAt arriving after a
message processed at id T is never processed. -/
theorem listener_shared_scalar_dedup :
    (∀ now m last, truthyStr m.type → last < effectiveId m now →
      (handleAuthMessage now (some m) last).1 = effectiveId m now) ∧
    (∀ now m T, effectiveId m now ≤ T →
      handleAuthMessage now (some m) T = (T, [])) ∧
    (∀ now m T s, m.sentAt = some s → 0 < s → s ≤ T →
      handleAuthMessage now (some m) T = (T, [])) := by
  refine ⟨handleAuthMessage_processed_fst, handleAuthMessage_dropped, ?_⟩
  intro now m T s hsent hs hle
  apply handleAuthMessage_dropped
  rw [effectiveId_of_sentAt m now s hsent hs]
  exact hle

/-- Witness for C9: a status message processed at id 100, after which a
token message with sentAt 50 is dropped. -/
theorem listener_shared_scalar_dedup_witness :
    (handleAuthMessage 3 (some statusMsgAt100) 0).1 = effectiveId statusMsgAt100 3 ∧
    handleAuthMessage 4 (some tokenMsgAt50) 100 = (100, []) :=
  ⟨listener_shared_scalar_dedup.1 3 statusMsgAt100 0 (by decide) (by decide),
   listener_shared_scalar_dedup.2.2 4 tokenMsgAt50 100 50 (by decide)
     (by decide) (by decide)⟩

end Pettai
